import Mathlib

/-!
Shallow embedding of the Demandit case-management data model and its
authorization / draft-versioning operations.

The embedding follows the repository sources:
* `database_migration.sql` — tables `companies`, `user_profiles`, `templates`,
  `case_templates`, `case_users`, the `cases` policies, the
  `auto_add_case_creator` trigger, and the `is_user_on_case` helper;
* `fix_recursion.sql` — the final SELECT policy on `cases`;
* `disable_case_users_rls.sql` — drops all policies on `case_users` and
  disables row-level security on that table;
* `demand_letter_drafts_schema.sql` — the `demand_letter_drafts` table with its
  `UNIQUE(case_id, version_number)` constraint, its RLS policies and the
  `get_next_draft_version` SECURITY DEFINER function;
* `src/services/draftService.js`, `caseService.js`, `templateService.js` —
  the client-side operations.

Tables are lists of rows; UUIDs are modelled as natural numbers drawn from a
`next_id` counter; timestamps are natural numbers passed explicitly (the SQL
`NOW()` default).  Row-level-security policies are boolean predicates over the
database, the calling user and the candidate row, translated clause by clause
from the `CREATE POLICY` statements that are in force after all migration
files have been applied.
-/

abbrev UserId := Nat
abbrev OrgId := Nat
abbrev CaseId := Nat
abbrev TemplateId := Nat
abbrev CaseTemplateId := Nat
abbrev DraftId := Nat

/-- Row of `user_profiles`: maps a user to their company. -/
structure UserProfile where
  id : UserId
  company_id : OrgId
deriving DecidableEq, Repr

/-- Row of `cases`: `user_id` is the creator. -/
structure Case where
  id : CaseId
  user_id : UserId
  company_id : OrgId
  title : String
deriving DecidableEq, Repr

/-- Row of `case_users` (case membership), primary key `(case_id, user_id)`. -/
structure CaseUser where
  case_id : CaseId
  user_id : UserId
  added_by : UserId
deriving DecidableEq, Repr

/-- Row of `templates` (company-wide templates). -/
structure Template where
  id : TemplateId
  company_id : OrgId
  name : String
  type : String
  content : String
deriving DecidableEq, Repr

/-- Row of `case_templates` (per-case template snapshots). -/
structure CaseTemplate where
  id : CaseTemplateId
  case_id : CaseId
  template_id : Option TemplateId
  name : String
  type : String
  content : String
  added_by : UserId
deriving DecidableEq, Repr

/-- `status` column of `demand_letter_drafts`: CHECK (status IN ('draft','saved')). -/
inductive DraftStatus where
  | draft
  | saved
deriving DecidableEq, Repr

/-- Row of `demand_letter_drafts`. -/
structure Draft where
  id : DraftId
  case_id : CaseId
  version_number : Nat
  status : DraftStatus
  rendered_content : String
  template_id : Option CaseTemplateId
  created_by : UserId
  saved_by : Option UserId
  saved_at : Option Nat
  created_at : Nat
  updated_at : Nat
deriving DecidableEq, Repr

/-- The relational store. `next_id` models the fresh-UUID generator. -/
structure DB where
  user_profiles : List UserProfile
  cases : List Case
  case_users : List CaseUser
  templates : List Template
  case_templates : List CaseTemplate
  demand_letter_drafts : List Draft
  next_id : Nat
deriving DecidableEq, Repr

/-- Errors surfaced by the store / service layer. -/
inductive DbError where
  | conflict
  | denied
  | notFound
  | multipleRows
  | profileNotFound
deriving DecidableEq, Repr

/-! ### Trusted helper functions (SECURITY DEFINER, bypass RLS) -/

/-- `is_user_on_case` from `database_migration.sql` / `fix_recursion.sql`:
SECURITY DEFINER, reads `case_users` raw. -/
def is_user_on_case (db : DB) (p_case_id : CaseId) (p_user_id : UserId) : Bool :=
  db.case_users.any fun cu => cu.case_id = p_case_id && cu.user_id = p_user_id

/-- `SELECT company_id FROM user_profiles WHERE id = u` (the caller's company). -/
def get_user_company_id (db : DB) (u : UserId) : Option OrgId :=
  (db.user_profiles.find? fun up => up.id = u).map fun up => up.company_id

/-! ### RLS policies in force after all migrations -/

/-- `templates` SELECT policy: `company_id IN (SELECT company_id FROM
user_profiles WHERE id = auth.uid())`. -/
def templates_select_allowed (db : DB) (caller : UserId) (t : Template) : Bool :=
  db.user_profiles.any fun up => up.id = caller && up.company_id = t.company_id

/-- `templates` INSERT policy (same company subquery). -/
def templates_insert_allowed (db : DB) (caller : UserId) (t : Template) : Bool :=
  db.user_profiles.any fun up => up.id = caller && up.company_id = t.company_id

/-- `templates` UPDATE policy (same company subquery). -/
def templates_update_allowed (db : DB) (caller : UserId) (t : Template) : Bool :=
  db.user_profiles.any fun up => up.id = caller && up.company_id = t.company_id

/-- `templates` DELETE policy (same company subquery). -/
def templates_delete_allowed (db : DB) (caller : UserId) (t : Template) : Bool :=
  db.user_profiles.any fun up => up.id = caller && up.company_id = t.company_id

/-- `cases` SELECT policy, final version from `fix_recursion.sql`:
case is in the caller's company AND (caller is creator OR on the case). -/
def cases_select_allowed (db : DB) (caller : UserId) (c : Case) : Bool :=
  (db.user_profiles.any fun up => up.id = caller && up.company_id = c.company_id)
    && (c.user_id = caller || is_user_on_case db c.id caller)

/-- `cases` INSERT policy from `database_migration.sql`: company in caller's
company AND `user_id = auth.uid()`. -/
def cases_insert_allowed (db : DB) (caller : UserId) (c : Case) : Bool :=
  (db.user_profiles.any fun up => up.id = caller && up.company_id = c.company_id)
    && c.user_id = caller

/-- `cases` UPDATE policy from `database_migration.sql` (never replaced by the
later fix files): creator OR `is_user_on_case` — note: no company check. -/
def cases_update_allowed (db : DB) (caller : UserId) (c : Case) : Bool :=
  c.user_id = caller || is_user_on_case db c.id caller

/-- `cases` DELETE policy from `database_migration.sql`: creator OR
`is_user_on_case` — no company check. -/
def cases_delete_allowed (db : DB) (caller : UserId) (c : Case) : Bool :=
  c.user_id = caller || is_user_on_case db c.id caller

/-- `case_users` insert check: `disable_case_users_rls.sql` drops all policies
on `case_users` and disables RLS, so every operation on the table passes. -/
def case_users_insert_allowed (db : DB) (caller : UserId) (r : CaseUser) : Bool :=
  true

/-- `demand_letter_drafts` SELECT policy: EXISTS a `case_users` row for the
draft's case and the caller. -/
def drafts_select_allowed (db : DB) (caller : UserId) (d : Draft) : Bool :=
  db.case_users.any fun cu => cu.case_id = d.case_id && cu.user_id = caller

/-- `demand_letter_drafts` INSERT policy: membership AND `created_by = auth.uid()`. -/
def drafts_insert_allowed (db : DB) (caller : UserId) (d : Draft) : Bool :=
  (db.case_users.any fun cu => cu.case_id = d.case_id && cu.user_id = caller)
    && d.created_by = caller

/-- `demand_letter_drafts` UPDATE policy: membership. -/
def drafts_update_allowed (db : DB) (caller : UserId) (d : Draft) : Bool :=
  db.case_users.any fun cu => cu.case_id = d.case_id && cu.user_id = caller

/-- `demand_letter_drafts` DELETE policy: membership. -/
def drafts_delete_allowed (db : DB) (caller : UserId) (d : Draft) : Bool :=
  db.case_users.any fun cu => cu.case_id = d.case_id && cu.user_id = caller

/-- `case_templates` SELECT policy: case in caller's company AND
(caller is case creator OR `is_user_on_case`). -/
def case_templates_select_allowed (db : DB) (caller : UserId) (ct : CaseTemplate) : Bool :=
  (db.cases.any fun c =>
      c.id = ct.case_id
        && db.user_profiles.any fun up => up.id = caller && up.company_id = c.company_id)
    && ((db.cases.any fun c => c.id = ct.case_id && c.user_id = caller)
          || is_user_on_case db ct.case_id caller)

/-- `case_templates` INSERT policy (same clauses as SELECT). -/
def case_templates_insert_allowed (db : DB) (caller : UserId) (ct : CaseTemplate) : Bool :=
  (db.cases.any fun c =>
      c.id = ct.case_id
        && db.user_profiles.any fun up => up.id = caller && up.company_id = c.company_id)
    && ((db.cases.any fun c => c.id = ct.case_id && c.user_id = caller)
          || is_user_on_case db ct.case_id caller)

/-! ### Draft versioning (demand_letter_drafts_schema.sql, draftService.js) -/

/-- Drafts of a case: `FROM demand_letter_drafts WHERE case_id = c`. -/
def draftsOfCase (db : DB) (c : CaseId) : List Draft :=
  db.demand_letter_drafts.filter fun d => d.case_id = c

/-- Version numbers of a case's drafts. -/
def caseVersions (db : DB) (c : CaseId) : List Nat :=
  (draftsOfCase db c).map fun d => d.version_number

/-- `get_next_draft_version(p_case_id)`:
`SELECT COALESCE(MAX(version_number), 0) + 1 FROM demand_letter_drafts
WHERE case_id = p_case_id`. -/
def get_next_draft_version (db : DB) (p_case_id : CaseId) : Nat :=
  (caseVersions db p_case_id).foldr Nat.max 0 + 1

/-- The RPC as seen by a caller (`supabase.rpc` in `getNextVersionNumber`):
the function is SECURITY DEFINER, so it reads the whole table with no RLS
filter and no membership or organization check; the caller identity is unused. -/
def rpc_get_next_draft_version (db : DB) (caller : UserId) (p_case_id : CaseId) : Nat :=
  get_next_draft_version db p_case_id

/-- Draft rows visible to a caller through the SELECT RLS policy. -/
def visibleDrafts (db : DB) (caller : UserId) : List Draft :=
  db.demand_letter_drafts.filter fun d => drafts_select_allowed db caller d

/-- `UNIQUE(case_id, version_number)` violation test. -/
def hasVersionConflict (db : DB) (c : CaseId) (v : Nat) : Bool :=
  db.demand_letter_drafts.any fun e => e.case_id = c && e.version_number = v

/-- Insert into `demand_letter_drafts`: RLS WITH CHECK, then the
`UNIQUE(case_id, version_number)` constraint, then append the row. -/
def insertDraftRow (db : DB) (caller : UserId) (d : Draft) : Except DbError DB :=
  if !drafts_insert_allowed db caller d then .error .denied
  else if hasVersionConflict db d.case_id d.version_number then .error .conflict
  else .ok { db with demand_letter_drafts := db.demand_letter_drafts ++ [d],
                     next_id := db.next_id + 1 }

/-- The draft row built by `generateDraft` once a version number has been
allocated (status `draft`, `created_by` the caller, fresh id). -/
def mkGenDraft (now : Nat) (db : DB) (caller : UserId) (c : CaseId)
    (content : String) (tpl : Option CaseTemplateId) (v : Nat) : Draft :=
  { id := db.next_id, case_id := c, version_number := v, status := .draft,
    rendered_content := content, template_id := tpl, created_by := caller,
    saved_by := none, saved_at := none, created_at := now, updated_at := now }

/-- `generateDraft(caseId, renderedContent, templateId)` run sequentially:
allocate `get_next_draft_version`, then insert; any error is thrown directly
(`if (error) throw error`) with no retry. -/
def generateDraft (now : Nat) (db : DB) (caller : UserId) (c : CaseId)
    (content : String) (tpl : Option CaseTemplateId) :
    Except DbError (DB × Draft) :=
  let v := get_next_draft_version db c
  let d := mkGenDraft now db caller c content tpl v
  match insertDraftRow db caller d with
  | .ok db1 => .ok (db1, d)
  | .error e => .error e

/-! ### Interleaved execution of concurrent `generateDraft` calls

A `generateDraft` call is two store round-trips: the `get_next_draft_version`
RPC, then the insert.  Concurrent calls on the same case interleave these
steps; `genStep` advances one pending call by one round-trip, and
`runSchedule` executes a list of such steps. -/

deriving instance DecidableEq for Except

/-- Progress of one in-flight `generateDraft` call. -/
inductive GenPhase where
  | ready
  | allocated (v : Nat)
  | finished (r : Except DbError DraftId)
deriving DecidableEq, Repr

/-- One in-flight `generateDraft(case_id, content, template_id)` call. -/
structure GenOp where
  caller : UserId
  case_id : CaseId
  content : String
  template_id : Option CaseTemplateId
  phase : GenPhase
deriving DecidableEq, Repr

/-- Advance the `i`-th pending call by one store round-trip: a `ready` call
runs the `get_next_draft_version` RPC; an `allocated` call performs the insert
and finishes with the inserted draft id, or with the surfaced error
(`if (error) throw error` — no retry). -/
def genStep (now : Nat) (db : DB) (ops : List GenOp) (i : Nat) : DB × List GenOp :=
  match ops.get? i with
  | none => (db, ops)
  | some op =>
    match op.phase with
    | .ready =>
        (db, ops.set i { op with phase := .allocated (get_next_draft_version db op.case_id) })
    | .allocated v =>
        let d := mkGenDraft now db op.caller op.case_id op.content op.template_id v
        match insertDraftRow db op.caller d with
        | .ok db1 => (db1, ops.set i { op with phase := .finished (.ok d.id) })
        | .error e => (db, ops.set i { op with phase := .finished (.error e) })
    | .finished _ => (db, ops)

/-- Run an interleaving: the schedule names which pending call takes the next
store round-trip. -/
def runSchedule (now : Nat) : DB → List GenOp → List Nat → DB × List GenOp
  | db, ops, [] => (db, ops)
  | db, ops, i :: rest =>
      let s := genStep now db ops i
      runSchedule now s.1 s.2 rest

/-! ### Remaining draft operations (draftService.js) -/

/-- `saveDraft(draftId)`: `UPDATE demand_letter_drafts SET status = 'saved',
saved_by = user.id, saved_at = now WHERE id = draftId`, gated by the UPDATE
RLS policy, followed by `.single()`; the `updated_at` trigger also fires.
The update is unconditional — there is no check of the current status. -/
def saveDraft (now : Nat) (db : DB) (caller : UserId) (draftId : DraftId) :
    Except DbError (DB × Draft) :=
  match db.demand_letter_drafts.find? fun d => d.id = draftId with
  | none => .error .notFound
  | some d =>
      if drafts_update_allowed db caller d then
        let d1 := { d with status := .saved, saved_by := some caller,
                           saved_at := some now, updated_at := now }
        .ok ({ db with demand_letter_drafts :=
                 db.demand_letter_drafts.map fun e => if e.id = draftId then d1 else e },
             d1)
      else .error .notFound

/-! ### Case creation (caseService.js, auto_add_case_creator trigger) -/

/-- `case_users` rows for a given case and user (the membership query). -/
def membershipRows (db : DB) (c : CaseId) (u : UserId) : List CaseUser :=
  db.case_users.filter fun r => r.case_id = c && r.user_id = u

/-- `createCase(caseData)`: read the caller's `company_id` from
`user_profiles`, insert the case with `user_id := caller` under the INSERT
RLS policy, and — in the same transaction — the `auto_add_case_creator`
trigger inserts the creator's `case_users` row with
`ON CONFLICT (case_id, user_id) DO NOTHING`. -/
def createCase (db : DB) (caller : UserId) (title : String) :
    Except DbError (DB × Case) :=
  match get_user_company_id db caller with
  | none => .error .profileNotFound
  | some comp =>
    let c : Case := { id := db.next_id, user_id := caller, company_id := comp, title := title }
    if cases_insert_allowed db caller c then
      let db1 := { db with cases := db.cases ++ [c], next_id := db.next_id + 1 }
      let db2 :=
        if db1.case_users.any fun r => r.case_id = c.id && r.user_id = c.user_id then db1
        else { db1 with case_users := db1.case_users ++ [⟨c.id, c.user_id, c.user_id⟩] }
      .ok (db2, c)
    else .error .denied

/-! ### Direct case_users insertion (RLS disabled) -/

/-- An insert into `case_users` through the API: the policy check (vacuous —
RLS is disabled on this table), then the `(case_id, user_id)` primary key. -/
def insertCaseUser (db : DB) (caller : UserId) (r : CaseUser) : Except DbError DB :=
  if !case_users_insert_allowed db caller r then .error .denied
  else if db.case_users.any fun x => x.case_id = r.case_id && x.user_id = r.user_id then
    .error .conflict
  else .ok { db with case_users := db.case_users ++ [r] }

/-! ### Template operations (templateService.js) -/

/-- `.maybeSingle()`: none for no rows, the row for one, an error for more. -/
def maybeSingle (l : List α) : Except DbError (Option α) :=
  match l with
  | [] => .ok none
  | [a] => .ok (some a)
  | _ => .error .multipleRows

/-- `getCompanyTemplate(templateId)`: `SELECT * FROM templates WHERE id = tid`
under the SELECT RLS policy, `.single()`. -/
def getCompanyTemplate (db : DB) (caller : UserId) (tid : TemplateId) :
    Except DbError Template :=
  match db.templates.filter fun t => t.id = tid && templates_select_allowed db caller t with
  | [t] => .ok t
  | [] => .error .notFound
  | _ => .error .multipleRows

/-- The fields a template update may set (`updates` object in
`updateCompanyTemplate`). -/
structure TemplateUpdates where
  name : Option String
  type : Option String
  content : Option String
deriving DecidableEq, Repr

/-- Apply an `UPDATE templates SET ...` payload to a row. -/
def applyTemplateUpdates (t : Template) (u : TemplateUpdates) : Template :=
  { t with name := u.name.getD t.name, type := u.type.getD t.type,
           content := u.content.getD t.content }

/-- `updateCompanyTemplate(templateId, updates)`: update the `templates` row
under the UPDATE RLS policy, `.select().single()`. -/
def updateCompanyTemplate (db : DB) (caller : UserId) (tid : TemplateId)
    (upd : TemplateUpdates) : Except DbError (DB × Template) :=
  match db.templates.find? fun t => t.id = tid with
  | none => .error .notFound
  | some t =>
      if templates_update_allowed db caller t then
        let t1 := applyTemplateUpdates t upd
        .ok ({ db with templates := db.templates.map fun e => if e.id = tid then t1 else e },
             t1)
      else .error .notFound

/-- `addTemplateToCase(caseId, templateId)`: read the company template, then
insert a `case_templates` row copying its name/type/content, under the INSERT
RLS policy. -/
def addTemplateToCase (db : DB) (caller : UserId) (caseId : CaseId)
    (templateId : TemplateId) : Except DbError (DB × CaseTemplate) :=
  match getCompanyTemplate db caller templateId with
  | .error e => .error e
  | .ok t =>
    let ct : CaseTemplate :=
      { id := db.next_id, case_id := caseId, template_id := some templateId,
        name := t.name, type := t.type, content := t.content, added_by := caller }
    if case_templates_insert_allowed db caller ct then
      .ok ({ db with case_templates := db.case_templates ++ [ct],
                     next_id := db.next_id + 1 }, ct)
    else .error .notFound

/-- `getOrCreateCaseTemplate(caseId, companyTemplateId)`: null maps to null;
otherwise look up an existing `case_templates` row for the
`(case_id, template_id)` pair with `.maybeSingle()` and return its id, else
create a snapshot via `addTemplateToCase` and return the new id. -/
def getOrCreateCaseTemplate (db : DB) (caller : UserId) (caseId : CaseId)
    (companyTemplateId : Option TemplateId) :
    Except DbError (DB × Option CaseTemplateId) :=
  match companyTemplateId with
  | none => .ok (db, none)
  | some tid =>
    match maybeSingle (db.case_templates.filter fun ct =>
        ct.case_id = caseId && ct.template_id = some tid
          && case_templates_select_allowed db caller ct) with
    | .error e => .error e
    | .ok (some e) => .ok (db, some e.id)
    | .ok none =>
      match addTemplateToCase db caller caseId tid with
      | .error e => .error e
      | .ok (db1, ct) => .ok (db1, some ct.id)

/-! ### Concrete states used by the closed theorems below -/

/-- C1 scenario: a case with two members and no drafts yet. -/
def c1db : DB :=
  { user_profiles := [⟨10, 0⟩, ⟨11, 0⟩], cases := [⟨1, 10, 0, "Case A"⟩],
    case_users := [⟨1, 10, 10⟩, ⟨1, 11, 10⟩], templates := [], case_templates := [],
    demand_letter_drafts := [], next_id := 2 }

/-- C1 scenario: two simultaneous `generateDraft` calls on case 1. -/
def c1ops : List GenOp :=
  [{ caller := 10, case_id := 1, content := "draft by first user",
     template_id := none, phase := .ready },
   { caller := 11, case_id := 1, content := "draft by second user",
     template_id := none, phase := .ready }]

/-- C6 scenario: a case with two members and no drafts yet. -/
def c6db : DB :=
  { user_profiles := [⟨20, 0⟩, ⟨21, 0⟩], cases := [⟨1, 20, 0, "Case B"⟩],
    case_users := [⟨1, 20, 20⟩, ⟨1, 21, 20⟩], templates := [], case_templates := [],
    demand_letter_drafts := [], next_id := 2 }

/-- C6 scenario: two simultaneous `generateDraft` calls on case 1. -/
def c6ops : List GenOp :=
  [{ caller := 20, case_id := 1, content := "alpha", template_id := none, phase := .ready },
   { caller := 21, case_id := 1, content := "beta", template_id := none, phase := .ready }]

/-- C6 scenario: both allocations happen before either insert. -/
def c6run : DB × List GenOp := runSchedule 7 c6db c6ops [0, 1, 0, 1]

/-- C2 scenario: the case of organization 0. -/
def c2case : Case := ⟨1, 10, 0, "Org zero case"⟩

/-- C2 scenario: a draft of that case. -/
def c2draft : Draft := ⟨2, 1, 1, .draft, "confidential letter", none, 10, none, none, 0, 0⟩

/-- C2 scenario: user 10 is in organization 0 and owns the case; user 20 is in
organization 1 and has no membership. -/
def c2db : DB :=
  { user_profiles := [⟨10, 0⟩, ⟨20, 1⟩], cases := [c2case],
    case_users := [⟨1, 10, 10⟩], templates := [], case_templates := [],
    demand_letter_drafts := [c2draft], next_id := 3 }

/-- C2 scenario: the membership row the outsider inserts for themselves. -/
def c2row : CaseUser := ⟨1, 20, 20⟩

/-- C2 scenario: the store after the outsider's self-insert. -/
def c2dbAfter : DB :=
  { user_profiles := [⟨10, 0⟩, ⟨20, 1⟩], cases := [c2case],
    case_users := [⟨1, 10, 10⟩, c2row], templates := [], case_templates := [],
    demand_letter_drafts := [c2draft], next_id := 3 }

/-- C9 scenario: the case of organization 0. -/
def c9case : Case := ⟨1, 30, 0, "Case C9"⟩

/-- C9 scenario: user 30 in organization 0 created the case; user 31 is in
organization 1. -/
def c9db : DB :=
  { user_profiles := [⟨30, 0⟩, ⟨31, 1⟩], cases := [c9case],
    case_users := [⟨1, 30, 30⟩], templates := [], case_templates := [],
    demand_letter_drafts := [], next_id := 2 }

/-- C9 scenario: the cross-organization membership row. -/
def c9row : CaseUser := ⟨1, 31, 31⟩

/-- C9 scenario: the store after the unrestricted insert. -/
def c9dbAfter : DB :=
  { user_profiles := [⟨30, 0⟩, ⟨31, 1⟩], cases := [c9case],
    case_users := [⟨1, 30, 30⟩, c9row], templates := [], case_templates := [],
    demand_letter_drafts := [], next_id := 2 }

/-- C4 scenario: a case with one member and one unsaved draft. -/
def c4db : DB :=
  { user_profiles := [⟨10, 0⟩], cases := [⟨1, 10, 0, "Case C4"⟩],
    case_users := [⟨1, 10, 10⟩], templates := [], case_templates := [],
    demand_letter_drafts := [⟨2, 1, 1, .draft, "letter", none, 10, none, none, 0, 0⟩],
    next_id := 3 }

/-- C4 scenario: the draft returned by the first save (at time 5). -/
def c4draft1 : Draft := ⟨2, 1, 1, .saved, "letter", none, 10, some 10, some 5, 0, 5⟩

/-- C4 scenario: the store after the first save. -/
def c4db1 : DB :=
  { user_profiles := [⟨10, 0⟩], cases := [⟨1, 10, 0, "Case C4"⟩],
    case_users := [⟨1, 10, 10⟩], templates := [], case_templates := [],
    demand_letter_drafts := [c4draft1], next_id := 3 }

/-- C4 scenario: the draft returned by the second save (at time 9). -/
def c4draft2 : Draft := ⟨2, 1, 1, .saved, "letter", none, 10, some 10, some 9, 0, 9⟩

/-- C4 scenario: the store after the second save. -/
def c4db2 : DB :=
  { user_profiles := [⟨10, 0⟩], cases := [⟨1, 10, 0, "Case C4"⟩],
    case_users := [⟨1, 10, 10⟩], templates := [], case_templates := [],
    demand_letter_drafts := [c4draft2], next_id := 3 }

/-- C3 witness state: case 1 has drafts with versions 1 and 2. -/
def c3wdb : DB :=
  { user_profiles := [], cases := [], case_users := [], templates := [],
    case_templates := [],
    demand_letter_drafts :=
      [⟨1, 1, 1, .draft, "v one", none, 10, none, none, 0, 0⟩,
       ⟨2, 1, 2, .draft, "v two", none, 10, none, none, 0, 0⟩],
    next_id := 3 }

/-- C5 witness state: one user with a profile, no cases yet. -/
def c5wdb : DB :=
  { user_profiles := [⟨50, 0⟩], cases := [], case_users := [], templates := [],
    case_templates := [], demand_letter_drafts := [], next_id := 1 }

/-- C5 witness: the case created from `c5wdb`. -/
def c5wcase : Case := ⟨1, 50, 0, "New case"⟩

/-- C5 witness: the store after `createCase`. -/
def c5wdb2 : DB :=
  { user_profiles := [⟨50, 0⟩], cases := [c5wcase], case_users := [⟨1, 50, 50⟩],
    templates := [], case_templates := [], demand_letter_drafts := [], next_id := 2 }

/-- C7 witness state: member 60 on case 1, one company template, no snapshots. -/
def c7db : DB :=
  { user_profiles := [⟨60, 0⟩], cases := [⟨1, 60, 0, "Case C7"⟩],
    case_users := [⟨1, 60, 60⟩],
    templates := [⟨5, 0, "Tmpl", "demand-letter", "Hello body"⟩],
    case_templates := [], demand_letter_drafts := [], next_id := 7 }

/-- C7 witness: the snapshot created by the first `getOrCreateCaseTemplate`. -/
def c7ct : CaseTemplate := ⟨7, 1, some 5, "Tmpl", "demand-letter", "Hello body", 60⟩

/-- C7 witness: the store after the first call. -/
def c7db1 : DB :=
  { user_profiles := [⟨60, 0⟩], cases := [⟨1, 60, 0, "Case C7"⟩],
    case_users := [⟨1, 60, 60⟩],
    templates := [⟨5, 0, "Tmpl", "demand-letter", "Hello body"⟩],
    case_templates := [c7ct], demand_letter_drafts := [], next_id := 8 }

/-- C8 witness state: a template and a snapshot previously taken from it. -/
def c8db : DB :=
  { user_profiles := [⟨70, 0⟩], cases := [⟨1, 70, 0, "Case C8"⟩],
    case_users := [⟨1, 70, 70⟩],
    templates := [⟨5, 0, "Tmpl", "demand-letter", "Original body"⟩],
    case_templates := [⟨6, 1, some 5, "Tmpl", "demand-letter", "Original body", 70⟩],
    demand_letter_drafts := [], next_id := 9 }

/-- C8 witness: the update payload editing the template's content. -/
def c8upd : TemplateUpdates := { name := none, type := none, content := some "Edited body" }

/-- C8 witness: the updated template row. -/
def c8t1 : Template := ⟨5, 0, "Tmpl", "demand-letter", "Edited body"⟩

/-- C8 witness: the store after the template edit. -/
def c8db1 : DB :=
  { user_profiles := [⟨70, 0⟩], cases := [⟨1, 70, 0, "Case C8"⟩],
    case_users := [⟨1, 70, 70⟩], templates := [c8t1],
    case_templates := [⟨6, 1, some 5, "Tmpl", "demand-letter", "Original body", 70⟩],
    demand_letter_drafts := [], next_id := 9 }

/-- C10 witness state: case 1 of organization 0 with two drafts; user 41 is in
organization 1 and is not a member. -/
def c10wdb : DB :=
  { user_profiles := [⟨40, 0⟩, ⟨41, 1⟩], cases := [⟨1, 40, 0, "Case C10"⟩],
    case_users := [⟨1, 40, 40⟩],
    templates := [], case_templates := [],
    demand_letter_drafts :=
      [⟨2, 1, 1, .draft, "v one", none, 40, none, none, 0, 0⟩,
       ⟨3, 1, 2, .draft, "v two", none, 40, none, none, 0, 0⟩],
    next_id := 4 }


/-! ### Helper lemmas about `foldr Nat.max 0` (the SQL `MAX` aggregate) -/

/-- Every element of a list is bounded by its `foldr Nat.max 0`. -/
theorem versions_le_foldr_max (l : List Nat) : ∀ v ∈ l, v ≤ l.foldr Nat.max 0 := by
  induction l with
  | nil => intro v hv; cases hv
  | cons a t ih =>
    intro v hv
    simp only [List.foldr_cons]
    rcases List.mem_cons.mp hv with rfl | hv
    · exact Nat.le_max_left _ _
    · exact Nat.le_trans (ih v hv) (Nat.le_max_right _ _)

/-- On a nonempty list, `foldr Nat.max 0` is attained by some element. -/
theorem versions_foldr_max_mem (l : List Nat) (h : l ≠ []) : l.foldr Nat.max 0 ∈ l := by
  induction l with
  | nil => exact absurd rfl h
  | cons a t ih =>
    simp only [List.foldr_cons]
    rcases eq_or_ne t [] with rfl | ht
    · simp
    · rcases Nat.le_total (t.foldr Nat.max 0) a with hle | hle
      · have hm : a.max (t.foldr Nat.max 0) = a := Nat.max_eq_left hle
        rw [hm]; exact List.mem_cons_self a t
      · have hm : a.max (t.foldr Nat.max 0) = t.foldr Nat.max 0 := Nat.max_eq_right hle
        rw [hm]; exact List.mem_cons_of_mem a (ih ht)

/-! ### Claim theorems -/

/-- C3: `get_next_draft_version(caseId)` returns 1 when the case has no
drafts, and otherwise returns the maximum existing version number plus one —
the returned value minus one is an existing version number, and every existing
version number is strictly below the returned value. -/
theorem get_next_draft_version_spec (db : DB) (c : CaseId) :
    (draftsOfCase db c = [] → get_next_draft_version db c = 1)
    ∧ (draftsOfCase db c ≠ [] →
        get_next_draft_version db c - 1 ∈ caseVersions db c
        ∧ ∀ v ∈ caseVersions db c, v < get_next_draft_version db c) := by
  constructor
  · intro h
    unfold get_next_draft_version caseVersions
    rw [h]
    rfl
  · intro h
    have hne : caseVersions db c ≠ [] := by
      unfold caseVersions
      simp only [ne_eq, List.map_eq_nil_iff]
      exact h
    refine ⟨?_, ?_⟩
    · unfold get_next_draft_version
      simp only [Nat.add_sub_cancel]
      exact versions_foldr_max_mem _ hne
    · intro v hv
      unfold get_next_draft_version
      exact Nat.lt_succ_of_le (versions_le_foldr_max _ v hv)

/-- Witness for C3: on a store whose case-1 drafts have versions 1 and 2, the
next version is 3 = max + 1. -/
theorem get_next_draft_version_spec_witness :
    (get_next_draft_version c3wdb 1 - 1 ∈ caseVersions c3wdb 1
      ∧ ∀ v ∈ caseVersions c3wdb 1, v < get_next_draft_version c3wdb 1)
    ∧ get_next_draft_version c3wdb 1 = 3 :=
  ⟨(get_next_draft_version_spec c3wdb 1).2 (by decide), by decide⟩

/-- C1: two `generateDraft` calls on the same case whose version-allocation
RPCs are both executed before either insert are assigned the SAME version
number (both get 1); the first insert succeeds and the second fails with a
unique-constraint conflict.  The allocation and insert are two separate store
round-trips, so they are not atomic with respect to concurrent callers. -/
theorem generate_concurrent_same_version_bug :
    ((runSchedule 0 c1db c1ops [0, 1]).2.map GenOp.phase
        = [.allocated 1, .allocated 1])
    ∧ ((runSchedule 0 c1db c1ops [0, 1, 0, 1]).2.map GenOp.phase
        = [.finished (.ok 2), .finished (.error .conflict)]) := by decide

/-- C2: cross-organization isolation fails.  User 20 of organization 1 is
initially denied reads of the organization-0 draft, but `case_users` has RLS
disabled, so the outsider can insert their own membership row; afterwards the
draft SELECT/UPDATE policies and the case UPDATE policy (which check only
membership, not organization) all allow the outsider. -/
theorem cross_org_draft_access_bug :
    get_user_company_id c2db 20 = some 1
    ∧ c2case.company_id = 0
    ∧ is_user_on_case c2db 1 20 = false
    ∧ drafts_select_allowed c2db 20 c2draft = false
    ∧ insertCaseUser c2db 20 c2row = .ok c2dbAfter
    ∧ drafts_select_allowed c2dbAfter 20 c2draft = true
    ∧ drafts_update_allowed c2dbAfter 20 c2draft = true
    ∧ cases_update_allowed c2dbAfter 20 c2case = true := by decide

/-- C4 counterexample: two `saveDraft` calls by the same user at times 5 and 9
return different `saved_at` values — the second call re-stamps the already
saved draft instead of being a no-op. -/
theorem save_twice_differs_counterexample :
    saveDraft 5 c4db 10 2 = .ok (c4db1, c4draft1)
    ∧ saveDraft 9 c4db1 10 2 = .ok (c4db2, c4draft2)
    ∧ c4draft1.saved_at ≠ c4draft2.saved_at := by decide

/-- C4 (amended): `saveDraft` unconditionally re-stamps: whenever it succeeds
the returned draft has status `saved`, `saved_by` the calling user and
`saved_at` the time of THIS call, regardless of any earlier save. -/
theorem saveDraft_restamps (now : Nat) (db : DB) (caller : UserId)
    (draftId : DraftId) (db1 : DB) (d1 : Draft)
    (h : saveDraft now db caller draftId = .ok (db1, d1)) :
    d1.status = .saved ∧ d1.saved_by = some caller ∧ d1.saved_at = some now := by
  unfold saveDraft at h
  split at h
  · exact Except.noConfusion h
  · split at h
    · simp only [Except.ok.injEq, Prod.mk.injEq] at h
      obtain ⟨h1, h2⟩ := h
      subst h2
      simp
    · exact Except.noConfusion h

/-- Witness for C4 (amended) at the concrete first save. -/
theorem saveDraft_restamps_witness :
    c4draft1.status = .saved ∧ c4draft1.saved_by = some 10
      ∧ c4draft1.saved_at = some 5 :=
  saveDraft_restamps 5 c4db 10 2 c4db1 c4draft1 (by decide)

/-- C5: on a well-formed store (no membership row mentions an unallocated case
id), a successful `createCase` yields a store in which the membership query
for the new case and its creator returns exactly one row.  The case insert and
the `auto_add_case_creator` trigger run in one transaction, so `createCase` is
a single atomic step of the model and no intermediate state exists. -/
theorem createCase_creator_membership (db : DB) (caller : UserId) (title : String)
    (db2 : DB) (c : Case)
    (hwf : ∀ r ∈ db.case_users, r.case_id < db.next_id)
    (h : createCase db caller title = .ok (db2, c)) :
    (membershipRows db2 c.id caller).length = 1 := by
  unfold createCase at h
  split at h
  · exact Except.noConfusion h
  · have hany : (db.case_users.any fun r =>
        r.case_id = db.next_id && r.user_id = caller) = false := by
      rw [List.any_eq_false]
      intro r hr
      simp only [Bool.and_eq_true, decide_eq_true_eq, not_and]
      intro hcase
      exact absurd hcase (Nat.ne_of_lt (hwf r hr))
    simp only [hany, Bool.false_eq_true, if_false] at h
    split at h
    · simp only [Except.ok.injEq, Prod.mk.injEq] at h
      obtain ⟨h1, h2⟩ := h
      subst h1
      subst h2
      unfold membershipRows
      simp only [List.filter_append]
      have hold : (db.case_users.filter fun r =>
          r.case_id = db.next_id && r.user_id = caller) = [] := by
        rw [List.filter_eq_nil_iff]
        intro r hr
        simp only [Bool.and_eq_true, decide_eq_true_eq, not_and]
        intro hcase
        exact absurd hcase (Nat.ne_of_lt (hwf r hr))
      rw [hold]
      simp
    · exact Except.noConfusion h

/-- Witness for C5: creating a case in a one-user store leaves exactly one
membership row for the creator. -/
theorem createCase_creator_membership_witness :
    (membershipRows c5wdb2 c5wcase.id 50).length = 1 :=
  createCase_creator_membership c5wdb 50 "New case" c5wdb2 c5wcase
    (by decide) (by decide)

/-- C6 counterexample: under the same-case interleaving in which both
allocations precede both inserts, the second caller's `generateDraft` finishes
with the raw conflict error even though a single internal retry would have
succeeded — the next version at the final store is 2 and inserting it
succeeds.  No retry happens: the error is surfaced directly. -/
theorem conflict_not_retried_counterexample :
    c6run.2.map GenOp.phase = [.finished (.ok 2), .finished (.error .conflict)]
    ∧ get_next_draft_version c6run.1 1 = 2
    ∧ (insertDraftRow c6run.1 21
        (mkGenDraft 7 c6run.1 21 1 "beta" none 2)).isOk = true := by decide

/-- C6 (amended): `generateDraft` performs no internal retry — when the insert
of an allocated version hits the unique-constraint conflict, the operation
finishes immediately with the surfaced error and the store is unchanged. -/
theorem genStep_no_retry (now : Nat) (db : DB) (ops : List GenOp) (i : Nat)
    (op : GenOp) (v : Nat)
    (hop : ops.get? i = some op) (hph : op.phase = .allocated v)
    (hallow : drafts_insert_allowed db op.caller
        (mkGenDraft now db op.caller op.case_id op.content op.template_id v) = true)
    (hconf : hasVersionConflict db op.case_id v = true) :
    genStep now db ops i
      = (db, ops.set i { op with phase := .finished (.error .conflict) }) := by
  obtain ⟨cal, cid, cont, tpl, ph⟩ := op
  simp only [mkGenDraft] at hph hallow hconf
  subst hph
  unfold genStep
  rw [hop]
  simp only [mkGenDraft, insertDraftRow, hallow, hconf, Bool.not_true,
    Bool.false_eq_true, if_false, if_true]

/-- Witness for C6 (amended): a member generating on a case that already holds
version 1 with version 1 allocated finishes with the conflict error. -/
theorem genStep_no_retry_witness :
    genStep 0 c4db [⟨10, 1, "again", none, .allocated 1⟩] 0
      = (c4db, [⟨10, 1, "again", none, .finished (.error .conflict)⟩]) :=
  genStep_no_retry 0 c4db [⟨10, 1, "again", none, .allocated 1⟩] 0
    ⟨10, 1, "again", none, .allocated 1⟩ 1 (by decide) (by decide)
    (by decide) (by decide)

/-- C8: `updateCompanyTemplate` never touches the `case_templates` table: a
successful template edit leaves every snapshot row — its name, type and
content included — exactly as it was. -/
theorem updateCompanyTemplate_frame (db : DB) (caller : UserId) (tid : TemplateId)
    (upd : TemplateUpdates) (db1 : DB) (t1 : Template)
    (h : updateCompanyTemplate db caller tid upd = .ok (db1, t1)) :
    db1.case_templates = db.case_templates := by
  unfold updateCompanyTemplate at h
  split at h
  · exact Except.noConfusion h
  · split at h
    · simp only [Except.ok.injEq, Prod.mk.injEq] at h
      obtain ⟨h1, h2⟩ := h
      subst h1
      rfl
    · exact Except.noConfusion h

/-- Witness for C8: editing the template's content leaves the snapshot list of
the concrete store unchanged. -/
theorem updateCompanyTemplate_frame_witness :
    c8db1.case_templates = c8db.case_templates :=
  updateCompanyTemplate_frame c8db 70 5 c8upd c8db1 c8t1 (by decide)

/-- C9 counterexample: user 31 (organization 1, not the creator, not a member)
inserts the membership row `⟨case 1, user 31⟩` into the organization-0 case
and the insert is allowed — `case_users` has RLS disabled — leaving a
reachable state whose membership row crosses organizations. -/
theorem membership_insert_cross_org_counterexample :
    is_user_on_case c9db 1 31 = false
    ∧ c9case.user_id ≠ 31
    ∧ get_user_company_id c9db 31 = some 1
    ∧ c9case.company_id = 0
    ∧ insertCaseUser c9db 31 c9row = .ok c9dbAfter
    ∧ c9row ∈ c9dbAfter.case_users
    ∧ get_user_company_id c9dbAfter c9row.user_id = some 1 := by decide

/-- C9 (amended): after `disable_case_users_rls.sql`, membership insertion is
not policy-restricted: any caller may insert any `case_users` row; the only
failure mode is the `(case_id, user_id)` primary key.  In particular the
same-organization invariant on membership rows is not enforced by the store. -/
theorem insertCaseUser_unrestricted (db : DB) (caller : UserId) (r : CaseUser)
    (h : (db.case_users.any fun x =>
        x.case_id = r.case_id && x.user_id = r.user_id) = false) :
    insertCaseUser db caller r
      = .ok { db with case_users := db.case_users ++ [r] } := by
  unfold insertCaseUser case_users_insert_allowed
  simp [h]

/-- Witness for C9 (amended): the cross-organization insert of the
counterexample state goes through. -/
theorem insertCaseUser_unrestricted_witness :
    insertCaseUser c9db 31 c9row = .ok c9dbAfter :=
  insertCaseUser_unrestricted c9db 31 c9row (by decide)

/-- C10: the `get_next_draft_version` RPC is SECURITY DEFINER and checks
neither membership nor organization: on a fixed store it returns the same
next version to every caller, and a caller with no membership on the case —
for whom the draft SELECT policy exposes no draft of that case at all — still
receives the next version computed over the full table. -/
theorem rpc_next_version_caller_blind (db : DB) (c : CaseId) (u1 u2 : UserId) :
    rpc_get_next_draft_version db u1 c = rpc_get_next_draft_version db u2 c
    ∧ (is_user_on_case db c u1 = false →
        ∀ d ∈ visibleDrafts db u1, d.case_id ≠ c) := by
  refine ⟨rfl, ?_⟩
  intro h d hd hc
  subst hc
  unfold visibleDrafts at hd
  rw [List.mem_filter] at hd
  have hmem := hd.2
  rw [show drafts_select_allowed db u1 d
      = is_user_on_case db d.case_id u1 from rfl] at hmem
  rw [h] at hmem
  exact Bool.noConfusion hmem

/-- Witness for C10: the non-member outsider 41 gets the same answer (3) as
the member 40, although the outsider can see no draft of case 1. -/
theorem rpc_next_version_caller_blind_witness :
    rpc_get_next_draft_version c10wdb 41 1 = rpc_get_next_draft_version c10wdb 40 1
    ∧ rpc_get_next_draft_version c10wdb 41 1 = 3
    ∧ ∀ d ∈ visibleDrafts c10wdb 41, d.case_id ≠ 1 :=
  ⟨(rpc_next_version_caller_blind c10wdb 1 41 40).1, by decide,
    (rpc_next_version_caller_blind c10wdb 1 41 40).2 (by decide)⟩

/-- The `case_templates` SELECT policy does not read the `case_templates`
table or the id counter, so it is unchanged by a snapshot insert. -/
theorem case_templates_select_allowed_frame (db : DB) (X : List CaseTemplate)
    (n : Nat) (caller : UserId) (ct : CaseTemplate) :
    case_templates_select_allowed { db with case_templates := X, next_id := n } caller ct
      = case_templates_select_allowed db caller ct := rfl

/-- The `case_templates` SELECT and INSERT policies have identical clauses. -/
theorem case_templates_select_eq_insert (db : DB) (caller : UserId)
    (ct : CaseTemplate) :
    case_templates_select_allowed db caller ct
      = case_templates_insert_allowed db caller ct := rfl

/-- Inversion for `addTemplateToCase`: a successful snapshot insert returns
the copied row (for the requested case and template, passing the INSERT
policy) appended to the snapshot table, with the id counter advanced. -/
theorem addTemplateToCase_inv (db : DB) (caller : UserId) (caseId : CaseId)
    (tid : TemplateId) (dbA : DB) (ct : CaseTemplate)
    (h : addTemplateToCase db caller caseId tid = .ok (dbA, ct)) :
    ct.case_id = caseId ∧ ct.template_id = some tid
    ∧ case_templates_insert_allowed db caller ct = true
    ∧ dbA = { db with case_templates := db.case_templates ++ [ct],
                      next_id := db.next_id + 1 } := by
  simp only [addTemplateToCase] at h
  split at h
  · exact Except.noConfusion h
  · split at h
    · rename_i hpol
      simp only [Except.ok.injEq, Prod.mk.injEq] at h
      obtain ⟨h1, h2⟩ := h
      subst h2
      subst h1
      exact ⟨rfl, rfl, hpol, rfl⟩
    · exact Except.noConfusion h

/-- C7: `getOrCreateCaseTemplate` is idempotent — if one call succeeds with
snapshot id `r` and store `db1`, calling it again with the same arguments on
`db1` succeeds with the same id `r` and leaves the store at `db1`. -/
theorem getOrCreateCaseTemplate_idempotent (db : DB) (caller : UserId)
    (caseId : CaseId) (companyTemplateId : Option TemplateId)
    (db1 : DB) (r : Option CaseTemplateId)
    (h : getOrCreateCaseTemplate db caller caseId companyTemplateId = .ok (db1, r)) :
    getOrCreateCaseTemplate db1 caller caseId companyTemplateId = .ok (db1, r) := by
  cases companyTemplateId with
  | none =>
    simp only [getOrCreateCaseTemplate, Except.ok.injEq, Prod.mk.injEq] at h ⊢
    obtain ⟨h1, h2⟩ := h
    subst h1
    subst h2
    exact ⟨trivial, rfl⟩
  | some tid =>
    simp only [getOrCreateCaseTemplate] at h ⊢
    rcases hF : db.case_templates.filter (fun ct =>
        ct.case_id = caseId && ct.template_id = some tid
          && case_templates_select_allowed db caller ct) with _ | ⟨a, _ | ⟨b, t⟩⟩
    · rw [hF] at h
      simp only [maybeSingle] at h
      rcases hA : addTemplateToCase db caller caseId tid with e | ⟨dbA, ct⟩
      · rw [hA] at h
        exact Except.noConfusion h
      · rw [hA] at h
        simp only [Except.ok.injEq, Prod.mk.injEq] at h
        obtain ⟨h1, h2⟩ := h
        subst h1
        subst h2
        obtain ⟨hcid, htid, hpol, hdbA⟩ :=
          addTemplateToCase_inv db caller caseId tid dbA ct hA
        subst hdbA
        have hsel : case_templates_select_allowed db caller ct = true := by
          rw [case_templates_select_eq_insert]
          exact hpol
        simp only [case_templates_select_allowed_frame, List.filter_append]
        rw [hF]
        simp [maybeSingle, hsel, hcid, htid]
    · rw [hF] at h
      simp only [maybeSingle, Except.ok.injEq, Prod.mk.injEq] at h
      obtain ⟨h1, h2⟩ := h
      subst h1
      subst h2
      rw [hF]
      simp [maybeSingle]
    · rw [hF] at h
      simp only [maybeSingle] at h
      exact Except.noConfusion h

/-- Witness for C7: repeating the call that created the concrete snapshot
returns the same id 7 and the same store. -/
theorem getOrCreateCaseTemplate_idempotent_witness :
    getOrCreateCaseTemplate c7db1 60 1 (some 5) = .ok (c7db1, some 7) :=
  getOrCreateCaseTemplate_idempotent c7db 60 1 (some 5) c7db1 (some 7) (by decide)
